import Mathlib

/-!
Shallow embedding of the Dark-Earth-Carbon accounting engine
(src/carbon-dashboard/app.py, the later/canonical variant per the spec,
with the resolver caches of both app.py variants and the GMT+3 date
normalization).  Numeric values are modelled as exact rationals; a
Firestore document lookup that may be absent is an outer `Option`, and an
optional field inside a present document is an inner `Option`.  The
Firestore window/status filters run in the database, so `do_accounting`
receives the already-filtered record lists.  A Python `raise` (or an
uncaught `AttributeError`/`NameError`) is `Except.error`.
-/

/-- A timezone-aware instant, as in the Python `datetime` values stored in
Firestore: `instant` is seconds since the epoch (UTC) and `offset` the
timezone's offset from UTC in seconds.  `astimezone` keeps the instant and
changes the offset. -/
structure ZonedDT where
  instant : Int
  offset : Int
deriving DecidableEq

/-- Offset in seconds of the Etc/GMT-3 zone used by the dashboard
(pytz's sign convention: Etc/GMT-3 is UTC+3, a fixed offset, no DST). -/
def gmt3Offset : Int := 10800

/-- `datetime_val.astimezone(gmt3_timezone)`: same instant, offset +3h. -/
def astimezoneGmt3 (d : ZonedDT) : ZonedDT :=
  { instant := d.instant, offset := gmt3Offset }

/-- The calendar date (as a day number since the epoch) that
`strftime('%Y-%m-%d')` renders for a zoned datetime: floor-divide the
local clock reading by the number of seconds in a day. -/
def localDate (d : ZonedDT) : Int :=
  (d.instant + d.offset).fdiv 86400

/-- convert_to_gmt3 (carbon-dashboard/app.py lines 55-61): convert a
timestamp to the calendar date it falls on in the GMT+3 zone. -/
def convert_to_gmt3 (d : ZonedDT) : Int :=
  localDate (astimezoneGmt3 d)

/-- Global constants document (`constants/global`): the nested
`vehicle -> kgCO2 per km` map and the diesel conversion factor. -/
structure GlobalConstants where
  transportKgCO2PerKm : List (String × ℚ)
  dieselKgCO2PerL : ℚ

/-- Site constants document (`constants/<site>`). -/
structure SiteConstants where
  biocharDensityKgPerL : ℚ
  biocharCarbonContent : ℚ
  gramsCO2PerKWh : ℚ

/-- An order fetched with status "Delivered" and deliveredDate in the
window.  `formulation` and `customer` are the ids of the mandatory
single-element reference arrays; `vehicle` is the optional reference. -/
structure Order where
  orderNumber : String
  deliveredDate : ZonedDT
  productionQuantity : ℚ
  formulation : String
  customer : String
  vehicle : Option String
  isActivated : Bool

/-- A biomass input fetched with type "Biomass", status "Obtained" and
deliveryDate in the window.  `supplier` is `none` when the document has no
(or an empty) supplier reference array. -/
structure BiomassInput where
  id : String
  deliveryDate : ZonedDT
  supplier : Option String
  vehicle : Option String

/-- A carbon-cost document with date in the window. -/
structure CarbonCost where
  id : String
  ctype : String
  date : ZonedDT
  value : ℚ
  notes : String

/-- A biochar production record with endDate in the window. -/
structure ProductionRecord where
  quantityTons : ℚ

/-- A row of the carbon_retired dataframe
(columns "Order #", "Date", "Tons Carbon", "Tons CO2eq"); `δ` is the date
representation, `ZonedDT` while rows are built and `Int` (a GMT+3 day
number) after the final conversion. -/
structure RetiredRow (δ : Type) where
  orderNumber : String
  date : δ
  tonsCarbon : ℚ
  tonsCO2 : ℚ
deriving DecidableEq

/-- A row of the carbon_released dataframe
(columns "Row ID", "Type", "Date", "Tons CO2eq"). -/
structure ReleasedRow (δ : Type) where
  rowId : String
  rowType : String
  date : δ
  tonsCO2 : ℚ
deriving DecidableEq

/-- The read-only database state one accounting run sees: the two
constants documents and the three reference collections.  For a reference
collection, `none` is an absent document (Python's `to_dict()` returns
`None` and the subsequent `.get` raises `AttributeError`), and
`some none` a present document missing the looked-up field. -/
structure Db where
  globalConstants : GlobalConstants
  siteConstants : SiteConstants
  formulations : String → Option (Option ℚ)
  customers : String → Option (Option ℚ)
  suppliers : String → Option (Option ℚ)

/-- Association-list lookup for the vehicle → rate map
(`dict.get` on `transportKgCO2PerKm`). -/
def assocFind : List (String × ℚ) → String → Option ℚ
  | [], _ => none
  | (k, v) :: rest, key => if k = key then some v else assocFind rest key

/-- `global_constants.get("transportKgCO2PerKm").get(vehicle)` where
`vehicle` is `order.get("vehicle")[0]["id"] if order.get("vehicle") else
None`: a missing vehicle reference looks up `None` and yields `None`. -/
def vehicleRate (g : GlobalConstants) : Option String → Option ℚ
  | none => none
  | some v => assocFind g.transportKgCO2PerKm v

/-- Python truthiness of an optional float, as used by the biomass-input
guard `if not transport_cost or not supplier_distance`: `None` and `0` are
falsy. -/
def truthyRat : Option ℚ → Bool
  | none => false
  | some q => decide (q ≠ 0)

/-- Python local `prod_qty_biochar`: liters of biochar used to fulfil the
order (`order.get("productionQuantity") * percent_carbon`). -/
def prod_qty_biochar (percentCarbon : ℚ) (o : Order) : ℚ :=
  o.productionQuantity * percentCarbon

/-- Python local `tons_biochar`:
`(prod_qty_biochar * biochar_density) / 1000`. -/
def tons_biochar (db : Db) (percentCarbon : ℚ) (o : Order) : ℚ :=
  prod_qty_biochar percentCarbon o * db.siteConstants.biocharDensityKgPerL / 1000

/-- Python local `tons_carbon`: `tons_biochar * biochar_carbon_content`. -/
def tons_carbon (db : Db) (percentCarbon : ℚ) (o : Order) : ℚ :=
  tons_biochar db percentCarbon o * db.siteConstants.biocharCarbonContent

/-- Python local `tons_co2`: `tons_carbon * (44/12)`. -/
def tons_co2 (db : Db) (percentCarbon : ℚ) (o : Order) : ℚ :=
  tons_carbon db percentCarbon o * (44 / 12)

/-- One iteration of the delivered-orders loop
(carbon-dashboard/app.py lines 97-121): the retired-row computation, the
`tons_co2 > 0` guard, and the raw-biochar transport block guarded by
`not isActivated and customer != "DEC"`.  Returns the retired rows, the
released rows and the order's `tons_co2` value (which stays bound in
Python's loop variable and can leak into the carbon-cost loop). -/
def processOrder (db : Db) (o : Order) :
    Except String (List (RetiredRow ZonedDT) × List (ReleasedRow ZonedDT) × ℚ) :=
  match db.formulations o.formulation with
  | none => .error ("formulation " ++ o.formulation ++ " does not exist")
  | some none => .error ("formulation " ++ o.formulation ++ " has no Biochar fraction")
  | some (some percentCarbon) =>
    let tonsCarbon := tons_carbon db percentCarbon o
    let tonsCO2 := tons_co2 db percentCarbon o
    let retired : List (RetiredRow ZonedDT) :=
      if tonsCO2 > 0 then
        [{ orderNumber := o.orderNumber, date := o.deliveredDate,
           tonsCarbon := tonsCarbon, tonsCO2 := tonsCO2 }]
      else []
    if o.isActivated = false ∧ o.customer ≠ "DEC" then
      match db.customers o.customer with
      | none => .error ("customer " ++ o.customer ++ " does not exist")
      | some customerDistance =>
        match vehicleRate db.globalConstants o.vehicle, customerDistance with
        | some transportCost, some dist =>
          .ok (retired,
               [{ rowId := o.orderNumber, rowType := "Raw Biochar Transport",
                  date := o.deliveredDate, tonsCO2 := transportCost * dist / 1000 }],
               tonsCO2)
        | _, _ =>
          .error ("Order " ++ o.orderNumber ++
            " is missing vehicle, transportation cost constant, or customer distance")
    else
      .ok (retired, [], tonsCO2)

/-- The delivered-orders loop: rows accumulate in order; the third
component is the `tons_co2` of the last order processed, if any. -/
def processOrders (db : Db) :
    List Order →
    Except String (List (RetiredRow ZonedDT) × List (ReleasedRow ZonedDT) × Option ℚ)
  | [] => .ok ([], [], none)
  | o :: rest =>
    match processOrder db o with
    | .error e => .error e
    | .ok (ret, rel, t) =>
      match processOrders db rest with
      | .error e => .error e
      | .ok (rets, rels, tLast) => .ok (ret ++ rets, rel ++ rels, some (tLast.getD t))

/-- One iteration of the biomass-inputs loop
(carbon-dashboard/app.py lines 124-136): the `not input.get("supplier")`
guard, the supplier-distance resolution, and the truthiness guard
`if not transport_cost or not supplier_distance`. -/
def processInput (db : Db) (i : BiomassInput) : Except String (ReleasedRow ZonedDT) :=
  match i.supplier with
  | none => .error "Input is missing a supplier"
  | some sup =>
    match db.suppliers sup with
    | none => .error ("supplier " ++ sup ++ " does not exist")
    | some supplierDistance =>
      let transportCost := vehicleRate db.globalConstants i.vehicle
      if truthyRat transportCost = true ∧ truthyRat supplierDistance = true then
        .ok { rowId := i.id, rowType := "Biomass Transport", date := i.deliveryDate,
              tonsCO2 := transportCost.getD 0 * supplierDistance.getD 0 / 1000 }
      else
        .error
          "An Input is missing vehicle, transportation cost constant, or supplier/supplier distance"

/-- The biomass-inputs loop. -/
def processInputs (db : Db) : List BiomassInput → Except String (List (ReleasedRow ZonedDT))
  | [] => .ok []
  | i :: rest =>
    match processInput db i with
    | .error e => .error e
    | .ok row =>
      match processInputs db rest with
      | .error e => .error e
      | .ok rows => .ok (row :: rows)

/-- Value of the Python variable `tons_co2` after one carbon-cost
iteration: a fresh value for the two recognized types, otherwise whatever
the variable held before (`none` when it was never assigned). -/
def costTons (db : Db) (last : Option ℚ) (c : CarbonCost) : Option ℚ :=
  if c.ctype = "Electricity" then
    some (c.value * db.siteConstants.gramsCO2PerKWh / 1000000)
  else if c.ctype = "Diesel" then
    some (c.value * db.globalConstants.dieselKgCO2PerL / 1000)
  else last

/-- The carbon-costs loop (carbon-dashboard/app.py lines 139-151).  The
Python `tons_co2` variable is only assigned when the type is
"Electricity" or "Diesel"; for any other type the row is built from
whatever value `tons_co2` last held, and if it was never assigned the
loop dies with a `NameError`.  `last` enters as the `tons_co2` of the
last delivered order, if any. -/
def processCosts (db : Db) :
    Option ℚ → List CarbonCost → Except String (List (ReleasedRow ZonedDT))
  | _, [] => .ok []
  | last, c :: rest =>
    match costTons db last c with
    | none => .error "NameError: tons_co2 referenced before assignment"
    | some t =>
      match processCosts db (some t) rest with
      | .error e => .error e
      | .ok rows =>
        .ok ({ rowId := c.id, rowType := c.ctype ++ ": " ++ c.notes,
               date := c.date, tonsCO2 := t } :: rows)

/-- Final date normalization of a retired row
(`carbon_retired['Date'].apply(convert_to_gmt3)`). -/
def retiredToGmt3 (r : RetiredRow ZonedDT) : RetiredRow Int :=
  { orderNumber := r.orderNumber, date := convert_to_gmt3 r.date,
    tonsCarbon := r.tonsCarbon, tonsCO2 := r.tonsCO2 }

/-- Final date normalization of a released row. -/
def releasedToGmt3 (r : ReleasedRow ZonedDT) : ReleasedRow Int :=
  { rowId := r.rowId, rowType := r.rowType, date := convert_to_gmt3 r.date,
    tonsCO2 := r.tonsCO2 }

/-- do_accounting (carbon-dashboard/app.py lines 63-160) on the
already-fetched record lists: processes delivered orders, biomass inputs
and carbon costs in that order, sums the biochar production, and converts
every row date to its GMT+3 calendar date.  Any raised error aborts the
whole run. -/
def do_accounting (db : Db) (orders : List Order) (inputs : List BiomassInput)
    (costs : List CarbonCost) (production : List ProductionRecord) :
    Except String (List (RetiredRow Int) × List (ReleasedRow Int) × ℚ) :=
  match processOrders db orders with
  | .error e => .error e
  | .ok (retired, released₁, lastTons) =>
    match processInputs db inputs with
    | .error e => .error e
    | .ok released₂ =>
      match processCosts db lastTons costs with
      | .error e => .error e
      | .ok released₃ =>
        let totalBiocharProd := (production.map ProductionRecord.quantityTons).sum
        .ok (retired.map retiredToGmt3,
             (released₁ ++ released₂ ++ released₃).map releasedToGmt3,
             totalBiocharProd)

/-- Summary metrics computed by the dashboard tab
(carbon-dashboard/app.py lines 185-186): gross offset is the sum of the
retired ledger's "Tons CO2eq" column. -/
def grossOffset (retired : List (RetiredRow Int)) : ℚ :=
  (retired.map RetiredRow.tonsCO2).sum

/-- Net offset: gross offset minus the sum of the released ledger's
"Tons CO2eq" column. -/
def netOffset (retired : List (RetiredRow Int)) (released : List (ReleasedRow Int)) : ℚ :=
  grossOffset retired - (released.map ReleasedRow.tonsCO2).sum

/-- The summary pair handed to the two st.metric widgets. -/
def summarize (retired : List (RetiredRow Int)) (released : List (ReleasedRow Int)) :
    ℚ × ℚ :=
  (grossOffset retired, netOffset retired released)

/-- Membership test of the process-wide resolver caches
(`customer_cache` / `supplier_cache`, plain Python dicts keyed by the id
alone); the cached value is the document's optional `distance` field. -/
def cacheLookup (cache : List (String × Option ℚ)) (id : String) : Option (Option ℚ) :=
  match cache with
  | [] => none
  | (k, v) :: rest => if k = id then some v else cacheLookup rest id

/-- Outcome of one resolver call: the returned distance, the cache
afterwards, and whether a Firestore document read was performed. -/
structure ResolveOutcome where
  distance : Option ℚ
  cache : List (String × Option ℚ)
  didStoreLookup : Bool

/-- get_customer_distance (carbon-dashboard/app.py lines 35-43): on a
cache hit return the cached value with no store read; on a miss read
`{collection_prefix}/customers/{customer_id}` and cache its `distance`
field under the id alone.  `store p id` is the distance field of that
document (assumed to exist, as in the non-raising path of the code). -/
def get_customer_distance (store : String → String → Option ℚ)
    (cache : List (String × Option ℚ)) (p id : String) : ResolveOutcome :=
  match cacheLookup cache id with
  | some d => { distance := d, cache := cache, didStoreLookup := false }
  | none =>
    let d := store p id
    { distance := d, cache := (id, d) :: cache, didStoreLookup := true }

/-- get_supplier_distance (carbon-dashboard/app.py lines 45-53):
identical shape over `supplier_cache`. -/
def get_supplier_distance (store : String → String → Option ℚ)
    (cache : List (String × Option ℚ)) (p id : String) : ResolveOutcome :=
  match cacheLookup cache id with
  | some d => { distance := d, cache := cache, didStoreLookup := false }
  | none =>
    let d := store p id
    { distance := d, cache := (id, d) :: cache, didStoreLookup := true }

/-- An order on which the transport block of the orders loop cannot
complete: it is in scope for the block (not activated, external customer)
and its customer document, customer distance field, or vehicle rate is
missing. -/
def orderTransportFaulty (db : Db) (o : Order) : Bool :=
  if o.isActivated = false ∧ o.customer ≠ "DEC" then
    match db.customers o.customer, vehicleRate db.globalConstants o.vehicle with
    | none, _ => true
    | some none, _ => true
    | some (some _), none => true
    | some (some _), some _ => false
  else false

/-- A biomass input on which the inputs loop cannot complete: missing
supplier reference, missing supplier document, or a vehicle rate or
supplier distance that is absent or zero (the code's truthiness guard). -/
def inputTransportFaulty (db : Db) (i : BiomassInput) : Bool :=
  match i.supplier with
  | none => true
  | some s =>
    match db.suppliers s with
    | none => true
    | some d =>
      !(truthyRat (vehicleRate db.globalConstants i.vehicle) && truthyRat d)

/-- Inversion of a successful `processOrder`: the formulation resolved,
the returned tons value is the order's `tons_co2`, the retired rows are
the guarded singleton, and the released rows are the transport singleton
exactly when the order is in scope for the transport block. -/
theorem processOrder_ok_inv (db : Db) (o : Order)
    (ret : List (RetiredRow ZonedDT)) (rel : List (ReleasedRow ZonedDT)) (t : ℚ)
    (h : processOrder db o = .ok (ret, rel, t)) :
    ∃ pc, db.formulations o.formulation = some (some pc) ∧
      t = tons_co2 db pc o ∧
      ret = (if tons_co2 db pc o > 0 then
               [{ orderNumber := o.orderNumber, date := o.deliveredDate,
                  tonsCarbon := tons_carbon db pc o, tonsCO2 := tons_co2 db pc o }]
             else []) ∧
      ((o.isActivated = false ∧ o.customer ≠ "DEC") →
        ∃ dist rate, db.customers o.customer = some (some dist) ∧
          vehicleRate db.globalConstants o.vehicle = some rate ∧
          rel = [{ rowId := o.orderNumber, rowType := "Raw Biochar Transport",
                   date := o.deliveredDate, tonsCO2 := rate * dist / 1000 }]) ∧
      (¬(o.isActivated = false ∧ o.customer ≠ "DEC") → rel = []) := by
  unfold processOrder at h
  split at h
  · exact absurd h (by simp)
  · exact absurd h (by simp)
  · rename_i pc hf
    refine ⟨pc, hf, ?_⟩
    split at h
    · rename_i hcond
      split at h
      · exact absurd h (by simp)
      · rename_i dOpt hcust
        cases hv : vehicleRate db.globalConstants o.vehicle with
        | none =>
          rw [hv] at h
          cases dOpt <;> simp at h
        | some rate =>
          rw [hv] at h
          cases dOpt with
          | none => simp at h
          | some dist =>
            simp only [Except.ok.injEq, Prod.mk.injEq] at h
            obtain ⟨hret, hrel, ht⟩ := h
            subst ht
            refine ⟨rfl, hret.symm, ?_, ?_⟩
            · intro _
              exact ⟨dist, rate, hcust, rfl, hrel.symm⟩
            · intro hn; exact absurd hcond hn
    · rename_i hcond
      simp only [Except.ok.injEq, Prod.mk.injEq] at h
      obtain ⟨hret, hrel, ht⟩ := h
      subst ht
      exact ⟨rfl, hret.symm, fun hc => absurd hc hcond, fun _ => hrel.symm⟩

/-- Rows produced by the delivered-orders loop satisfy the stoichiometric
ratio, since each is built with `tonsCO2 := tons_co2 = tons_carbon * (44/12)`. -/
theorem processOrders_ratio (db : Db) (orders : List Order)
    (rets : List (RetiredRow ZonedDT)) (rels : List (ReleasedRow ZonedDT)) (tl : Option ℚ)
    (h : processOrders db orders = .ok (rets, rels, tl)) :
    ∀ row ∈ rets, row.tonsCO2 = row.tonsCarbon * (44 / 12) := by
  induction orders generalizing rets rels tl with
  | nil =>
    unfold processOrders at h
    simp only [Except.ok.injEq, Prod.mk.injEq] at h
    obtain ⟨h1, -, -⟩ := h
    rw [← h1]
    simp
  | cons o rest ih =>
    unfold processOrders at h
    split at h
    · exact absurd h (by simp)
    · rename_i ret rel t hone
      split at h
      · exact absurd h (by simp)
      · rename_i rets' rels' tl' hrest
        simp only [Except.ok.injEq, Prod.mk.injEq] at h
        obtain ⟨h1, -, -⟩ := h
        intro row hrow
        rw [← h1] at hrow
        rcases List.mem_append.mp hrow with hmem | hmem
        · obtain ⟨pc, -, -, hret, -, -⟩ := processOrder_ok_inv db o ret rel t hone
          rw [hret] at hmem
          split at hmem
          · cases hmem with
            | head => simp [tons_co2]
            | tail _ h2 => cases h2
          · exact absurd hmem (by simp)
        · exact ih rets' rels' tl' hrest row hmem

/-- Inversion of a successful `do_accounting` run into its four stages. -/
theorem do_accounting_ok_inv (db : Db) (orders : List Order)
    (inputs : List BiomassInput) (costs : List CarbonCost)
    (production : List ProductionRecord)
    (retired : List (RetiredRow Int)) (released : List (ReleasedRow Int)) (total : ℚ)
    (h : do_accounting db orders inputs costs production = .ok (retired, released, total)) :
    ∃ rets rels₁ tl rels₂ rels₃,
      processOrders db orders = .ok (rets, rels₁, tl) ∧
      processInputs db inputs = .ok rels₂ ∧
      processCosts db tl costs = .ok rels₃ ∧
      retired = rets.map retiredToGmt3 ∧
      released = (rels₁ ++ rels₂ ++ rels₃).map releasedToGmt3 ∧
      total = (production.map ProductionRecord.quantityTons).sum := by
  unfold do_accounting at h
  split at h
  · exact absurd h (by simp)
  · rename_i rets rels₁ tl hords
    split at h
    · exact absurd h (by simp)
    · rename_i rels₂ hinps
      split at h
      · exact absurd h (by simp)
      · rename_i rels₃ hcosts
        simp only [Except.ok.injEq, Prod.mk.injEq] at h
        obtain ⟨h1, h2, h3⟩ := h
        exact ⟨rets, rels₁, tl, rels₂, rels₃, hords, hinps, hcosts,
               h1.symm, h2.symm, h3.symm⟩

/-- C2: for every delivered order processed by do_accounting, a
carbon-retired row is appended if and only if the computed tons of CO2 is
strictly greater than 0; an order with productionQuantity = 0 never
produces a retired row. -/
theorem retired_row_iff_positive_tons (db : Db) (o : Order)
    (ret : List (RetiredRow ZonedDT)) (rel : List (ReleasedRow ZonedDT)) (t : ℚ)
    (h : processOrder db o = .ok (ret, rel, t)) :
    (ret ≠ [] ↔ 0 < t) ∧ (o.productionQuantity = 0 → ret = []) := by
  obtain ⟨pc, -, ht, hret, -, -⟩ := processOrder_ok_inv db o ret rel t h
  subst ht
  constructor
  · rw [hret]
    split_ifs with hp
    · simpa using hp
    · simpa using hp
  · intro hq
    have hz : tons_co2 db pc o = 0 := by
      simp [tons_co2, tons_carbon, tons_biochar, prod_qty_biochar, hq]
    rw [hret, hz]
    simp

/-- C3: every carbon-retired row has Tons CO2eq = Tons Carbon * 44/12
exactly, with Tons Carbon = productionQuantity * percentCarbon *
biocharDensityKgPerL / 1000 * biocharCarbonContent; the 1000 L / 0.3 /
1.2 kg/L / 0.8 scenario yields tonsCarbon = 0.288 and tonsCO2 = 1.056. -/
theorem retired_row_formula (db : Db) (orders : List Order)
    (inputs : List BiomassInput) (costs : List CarbonCost)
    (production : List ProductionRecord)
    (retired : List (RetiredRow Int)) (released : List (ReleasedRow Int)) (total : ℚ)
    (h : do_accounting db orders inputs costs production = .ok (retired, released, total)) :
    (∀ row ∈ retired, row.tonsCO2 = row.tonsCarbon * (44 / 12)) ∧
    (∀ (o : Order) ret rel (t pc : ℚ),
      db.formulations o.formulation = some (some pc) →
      processOrder db o = .ok (ret, rel, t) →
      ∀ row ∈ ret,
        row.tonsCarbon = o.productionQuantity * pc *
          db.siteConstants.biocharDensityKgPerL / 1000 *
          db.siteConstants.biocharCarbonContent ∧
        row.tonsCO2 = row.tonsCarbon * (44 / 12)) ∧
    (∀ (o : Order) ret rel (t pc : ℚ),
      db.formulations o.formulation = some (some pc) →
      processOrder db o = .ok (ret, rel, t) →
      o.productionQuantity = 1000 → pc = 3/10 →
      db.siteConstants.biocharDensityKgPerL = 12/10 →
      db.siteConstants.biocharCarbonContent = 8/10 →
      ∀ row ∈ ret, row.tonsCarbon = 288/1000 ∧ row.tonsCO2 = 1056/1000) := by
  obtain ⟨rets, rels₁, tl, rels₂, rels₃, hords, -, -, hretired, -, -⟩ :=
    do_accounting_ok_inv db orders inputs costs production retired released total h
  have formula : ∀ (o : Order) ret rel (t pc : ℚ),
      db.formulations o.formulation = some (some pc) →
      processOrder db o = .ok (ret, rel, t) →
      ∀ row ∈ ret,
        row.tonsCarbon = o.productionQuantity * pc *
          db.siteConstants.biocharDensityKgPerL / 1000 *
          db.siteConstants.biocharCarbonContent ∧
        row.tonsCO2 = row.tonsCarbon * (44 / 12) := by
    intro o ret rel t pc hf hok row hrow
    obtain ⟨pc', hf', -, hret, -, -⟩ := processOrder_ok_inv db o ret rel t hok
    rw [hf] at hf'
    have hpc : pc' = pc := by
      simpa using hf'.symm
    subst hpc
    rw [hret] at hrow
    split at hrow
    · cases hrow with
      | head =>
        exact ⟨by simp [tons_carbon, tons_biochar, prod_qty_biochar], by simp [tons_co2]⟩
      | tail _ h2 => cases h2
    · exact absurd hrow (by simp)
  refine ⟨?_, formula, ?_⟩
  · intro row hrow
    rw [hretired] at hrow
    obtain ⟨row₀, hmem, hmap⟩ := List.mem_map.mp hrow
    have := processOrders_ratio db orders rets rels₁ tl hords row₀ hmem
    rw [← hmap]
    simpa [retiredToGmt3] using this
  · intro o ret rel t pc hf hok hq hpc hden hcc row hrow
    obtain ⟨h1, h2⟩ := formula o ret rel t pc hf hok row hrow
    rw [hq, hpc, hden, hcc] at h1
    refine ⟨by rw [h1]; norm_num, ?_⟩
    rw [h2, h1]
    norm_num

/-- C4: an activated order never produces a transport-release row, nor
does an order whose customer is "DEC"; a non-activated order with an
external customer that completes produces exactly one
"Raw Biochar Transport" row. -/
theorem transport_row_conditions (db : Db) (o : Order)
    (ret : List (RetiredRow ZonedDT)) (rel : List (ReleasedRow ZonedDT)) (t : ℚ)
    (h : processOrder db o = .ok (ret, rel, t)) :
    (o.isActivated = true → rel = []) ∧
    (o.customer = "DEC" → rel = []) ∧
    (o.isActivated = false → o.customer ≠ "DEC" →
      ∃ r, rel = [r] ∧ r.rowType = "Raw Biochar Transport") := by
  obtain ⟨pc, -, -, -, htrans, hnone⟩ := processOrder_ok_inv db o ret rel t h
  refine ⟨?_, ?_, ?_⟩
  · intro ha
    exact hnone (by simp [ha])
  · intro hc
    exact hnone (by simp [hc])
  · intro ha hc
    obtain ⟨dist, rate, -, -, hrel⟩ := htrans ⟨ha, hc⟩
    exact ⟨_, hrel, rfl⟩

/-- C5: the summary pair satisfies grossOffset = sum of the retired
ledger's Tons CO2eq column and netOffset = grossOffset minus the sum of
the released ledger's Tons CO2eq column, and both are 0 on empty
ledgers. -/
theorem summarize_sums (retired : List (RetiredRow Int))
    (released : List (ReleasedRow Int)) :
    (summarize retired released).1 = (retired.map RetiredRow.tonsCO2).sum ∧
    (summarize retired released).2 =
      (retired.map RetiredRow.tonsCO2).sum - (released.map ReleasedRow.tonsCO2).sum ∧
    summarize [] [] = (0, 0) := by
  refine ⟨rfl, rfl, ?_⟩
  simp [summarize, grossOffset, netOffset]

/-- C9: converting to the fixed GMT+3 reporting zone is idempotent on the
calendar date: re-normalizing an already-normalized instant yields the
same date that instant already displays. -/
theorem convert_to_gmt3_idem (d : ZonedDT) :
    convert_to_gmt3 (astimezoneGmt3 d) = convert_to_gmt3 d ∧
    convert_to_gmt3 (astimezoneGmt3 d) = localDate (astimezoneGmt3 d) :=
  ⟨rfl, rfl⟩

/-- C7: a carbon-cost entry of type "Electricity" yields a released row
with Tons CO2eq = value * gramsCO2PerKWh / 1000000, one of type "Diesel"
yields value * dieselKgCO2PerL / 1000, both labelled "type: notes"; 2000
kWh at 400 gCO2/kWh yields 0.8 tons. -/
theorem energy_cost_rows (db : Db) (last : Option ℚ) (c : CarbonCost)
    (rest : List CarbonCost) (rows : List (ReleasedRow ZonedDT))
    (h : processCosts db last (c :: rest) = .ok rows) :
    (c.ctype = "Electricity" → ∃ tl, rows =
      { rowId := c.id, rowType := c.ctype ++ ": " ++ c.notes, date := c.date,
        tonsCO2 := c.value * db.siteConstants.gramsCO2PerKWh / 1000000 } :: tl) ∧
    (c.ctype = "Diesel" → ∃ tl, rows =
      { rowId := c.id, rowType := c.ctype ++ ": " ++ c.notes, date := c.date,
        tonsCO2 := c.value * db.globalConstants.dieselKgCO2PerL / 1000 } :: tl) ∧
    (c.ctype = "Electricity" → c.value = 2000 →
      db.siteConstants.gramsCO2PerKWh = 400 → ∃ tl, rows =
      { rowId := c.id, rowType := c.ctype ++ ": " ++ c.notes, date := c.date,
        tonsCO2 := 4/5 } :: tl) := by
  unfold processCosts at h
  split at h
  · exact absurd h (by simp)
  · rename_i t htons
    split at h
    · exact absurd h (by simp)
    · rename_i rows' hrest
      simp only [Except.ok.injEq] at h
      unfold costTons at htons
      refine ⟨?_, ?_, ?_⟩
      · intro hE
        rw [if_pos hE] at htons
        simp only [Option.some.injEq] at htons
        exact ⟨rows', by rw [← h, htons]⟩
      · intro hD
        have hne : ¬ c.ctype = "Electricity" := by rw [hD]; decide
        rw [if_neg hne, if_pos hD] at htons
        simp only [Option.some.injEq] at htons
        exact ⟨rows', by rw [← h, htons]⟩
      · intro hE hv hg
        rw [if_pos hE] at htons
        simp only [Option.some.injEq] at htons
        have ht : t = 4/5 := by
          rw [← htons, hv, hg]
          norm_num
        exact ⟨rows', by rw [← h, ht]⟩

/-- A transport-faulty order makes its loop iteration raise. -/
theorem processOrder_faulty_err (db : Db) (o : Order)
    (hf : orderTransportFaulty db o = true) :
    ∀ x, processOrder db o ≠ .ok x := by
  intro x hx
  unfold orderTransportFaulty at hf
  split at hf
  · rename_i hcond
    unfold processOrder at hx
    split at hx
    · exact absurd hx (by simp)
    · exact absurd hx (by simp)
    · rename_i pc hfm
      rw [if_pos hcond] at hx
      cases hcust : db.customers o.customer with
      | none =>
        rw [hcust] at hx
        exact absurd hx (by simp)
      | some dOpt =>
        rw [hcust] at hx hf
        cases dOpt with
        | none =>
          cases hv : vehicleRate db.globalConstants o.vehicle with
          | none =>
            rw [hv] at hx
            exact absurd hx (by simp)
          | some r =>
            rw [hv] at hx
            exact absurd hx (by simp)
        | some dist =>
          cases hv : vehicleRate db.globalConstants o.vehicle with
          | none =>
            rw [hv] at hx
            exact absurd hx (by simp)
          | some r =>
            rw [hv] at hf
            exact absurd hf (by simp)
  · exact absurd hf (by simp)

/-- A transport-faulty biomass input makes its loop iteration raise. -/
theorem processInput_faulty_err (db : Db) (i : BiomassInput)
    (hf : inputTransportFaulty db i = true) :
    ∀ x, processInput db i ≠ .ok x := by
  intro x hx
  cases hs : i.supplier with
  | none =>
    simp [processInput, hs] at hx
  | some s =>
    cases hd : db.suppliers s with
    | none =>
      simp [processInput, hs, hd] at hx
    | some d =>
      simp only [inputTransportFaulty, hs, hd] at hf
      simp only [processInput, hs, hd] at hx
      split at hx
      · rename_i hcond
        obtain ⟨h1, h2⟩ := hcond
        rw [h1, h2] at hf
        exact absurd hf (by decide)
      · exact absurd hx (by simp)

/-- Any error raised while processing a member order kills the whole
orders loop. -/
theorem processOrders_mem_err (db : Db) (o : Order)
    (he : ∀ x, processOrder db o ≠ .ok x) :
    ∀ orders, o ∈ orders → ∀ y, processOrders db orders ≠ .ok y := by
  intro orders
  induction orders with
  | nil =>
    intro ho
    cases ho
  | cons a rest ih =>
    intro ho y hy
    unfold processOrders at hy
    split at hy
    · exact absurd hy (by simp)
    · rename_i ret rel t ha
      split at hy
      · exact absurd hy (by simp)
      · rename_i rets rels tl hrest
        cases ho with
        | head => exact he (ret, rel, t) ha
        | tail _ ho2 => exact ih ho2 (rets, rels, tl) hrest

/-- Any error raised while processing a member input kills the whole
inputs loop. -/
theorem processInputs_mem_err (db : Db) (i : BiomassInput)
    (he : ∀ x, processInput db i ≠ .ok x) :
    ∀ inputs, i ∈ inputs → ∀ y, processInputs db inputs ≠ .ok y := by
  intro inputs
  induction inputs with
  | nil =>
    intro hi
    cases hi
  | cons a rest ih =>
    intro hi y hy
    unfold processInputs at hy
    split at hy
    · exact absurd hy (by simp)
    · rename_i row ha
      split at hy
      · exact absurd hy (by simp)
      · rename_i rows hrest
        cases hi with
        | head => exact he row ha
        | tail _ hi2 => exact ih hi2 rows hrest

/-- C1: if any order or biomass input in the window is missing its
vehicle, transport-rate constant, customer/supplier distance, or (for an
input) its supplier, do_accounting raises and the caller receives no
ledger pair and no total at all. -/
theorem run_aborts_on_missing_transport_data (db : Db) (orders : List Order)
    (inputs : List BiomassInput) (costs : List CarbonCost)
    (production : List ProductionRecord)
    (h : (∃ o ∈ orders, orderTransportFaulty db o = true) ∨
         (∃ i ∈ inputs, inputTransportFaulty db i = true)) :
    ∀ r, do_accounting db orders inputs costs production ≠ .ok r := by
  intro r hr
  obtain ⟨retired, released, total⟩ := r
  obtain ⟨rets, rels₁, tl, rels₂, rels₃, hords, hinps, -, -, -, -⟩ :=
    do_accounting_ok_inv db orders inputs costs production retired released total hr
  rcases h with ⟨o, ho, hof⟩ | ⟨i, hi, hif⟩
  · exact processOrders_mem_err db o (processOrder_faulty_err db o hof) orders ho _ hords
  · exact processInputs_mem_err db i (processInput_faulty_err db i hif) inputs hi _ hinps

/-- C8: both distance resolvers memoize by the id alone: after a first
call under any collection path, a second call for the same id under any
other path performs no store lookup and returns the value cached by the
first call under the first path. -/
theorem distance_cache_keyed_by_id (custStore supStore : String → String → Option ℚ)
    (c₁ c₂ : List (String × Option ℚ)) (p₁ p₂ q₁ q₂ id₁ id₂ : String)
    (h₁ : cacheLookup c₁ id₁ = none) (h₂ : cacheLookup c₂ id₂ = none) :
    ((get_customer_distance custStore c₁ p₁ id₁).distance = custStore p₁ id₁ ∧
     (get_customer_distance custStore
        (get_customer_distance custStore c₁ p₁ id₁).cache p₂ id₁).didStoreLookup = false ∧
     (get_customer_distance custStore
        (get_customer_distance custStore c₁ p₁ id₁).cache p₂ id₁).distance =
       custStore p₁ id₁) ∧
    ((get_supplier_distance supStore c₂ q₁ id₂).distance = supStore q₁ id₂ ∧
     (get_supplier_distance supStore
        (get_supplier_distance supStore c₂ q₁ id₂).cache q₂ id₂).didStoreLookup = false ∧
     (get_supplier_distance supStore
        (get_supplier_distance supStore c₂ q₁ id₂).cache q₂ id₂).distance =
       supStore q₁ id₂) := by
  constructor
  · have e₁ : get_customer_distance custStore c₁ p₁ id₁ =
        { distance := custStore p₁ id₁,
          cache := (id₁, custStore p₁ id₁) :: c₁, didStoreLookup := true } := by
      unfold get_customer_distance
      rw [h₁]
    have hc : cacheLookup ((id₁, custStore p₁ id₁) :: c₁) id₁ =
        some (custStore p₁ id₁) := by
      simp [cacheLookup]
    have e₂ : get_customer_distance custStore
        ((id₁, custStore p₁ id₁) :: c₁) p₂ id₁ =
        { distance := custStore p₁ id₁,
          cache := (id₁, custStore p₁ id₁) :: c₁, didStoreLookup := false } := by
      unfold get_customer_distance
      rw [hc]
    simp [e₁, e₂]
  · have e₁ : get_supplier_distance supStore c₂ q₁ id₂ =
        { distance := supStore q₁ id₂,
          cache := (id₂, supStore q₁ id₂) :: c₂, didStoreLookup := true } := by
      unfold get_supplier_distance
      rw [h₂]
    have hc : cacheLookup ((id₂, supStore q₁ id₂) :: c₂) id₂ =
        some (supStore q₁ id₂) := by
      simp [cacheLookup]
    have e₂ : get_supplier_distance supStore
        ((id₂, supStore q₁ id₂) :: c₂) q₂ id₂ =
        { distance := supStore q₁ id₂,
          cache := (id₂, supStore q₁ id₂) :: c₂, didStoreLookup := false } := by
      unfold get_supplier_distance
      rw [hc]
    simp [e₁, e₂]

/-- C10: a zero vehicle rate (or zero customer distance) passes the
`is None` guard of the delivered-order transport block and yields a
released row with Tons CO2eq = 0, while the same zero rate (or zero
supplier distance) fails the truthiness guard of the biomass-input block
and aborts the run with a ValueError. -/
theorem zero_transport_asymmetry (db : Db) (o : Order) (i : BiomassInput)
    (pc rate dist ti sd : ℚ) (s : String)
    (hf : db.formulations o.formulation = some (some pc))
    (ha : o.isActivated = false)
    (hc : o.customer ≠ "DEC")
    (hv : vehicleRate db.globalConstants o.vehicle = some rate)
    (hd : db.customers o.customer = some (some dist))
    (hz : rate = 0 ∨ dist = 0)
    (hs : i.supplier = some s)
    (hsd : db.suppliers s = some (some sd))
    (hiv : vehicleRate db.globalConstants i.vehicle = some ti)
    (hiz : ti = 0 ∨ sd = 0) :
    processOrder db o = .ok
      ((if tons_co2 db pc o > 0 then
          [{ orderNumber := o.orderNumber, date := o.deliveredDate,
             tonsCarbon := tons_carbon db pc o, tonsCO2 := tons_co2 db pc o }]
        else []),
       [{ rowId := o.orderNumber, rowType := "Raw Biochar Transport",
          date := o.deliveredDate, tonsCO2 := 0 }],
       tons_co2 db pc o) ∧
    (∃ e, processInput db i = .error e) := by
  constructor
  · have hzero : rate * dist / 1000 = 0 := by
      rcases hz with h | h <;> simp [h]
    simp only [processOrder, hf, hv, hd]
    rw [if_pos ⟨ha, hc⟩, hzero]
  · have hncond :
        ¬(truthyRat (vehicleRate db.globalConstants i.vehicle) = true ∧
          truthyRat (some sd) = true) := by
      rw [hiv]
      rintro ⟨hl, hr⟩
      rcases hiz with h | h
      · rw [h] at hl
        simp [truthyRat] at hl
      · rw [h] at hr
        simp [truthyRat] at hr
    refine ⟨"An Input is missing vehicle, transportation cost constant, or supplier/supplier distance", ?_⟩
    simp only [processInput, hs, hsd]
    rw [if_neg hncond]

/-- Common fixture: a database with a truck rate of 0.9 kgCO2/km, diesel
2.68 kgCO2/L, density 1.2 kg/L, carbon content 0.8, grid 400 gCO2/kWh,
every formulation 30% biochar, every customer and supplier 50 km away. -/
def dbW : Db :=
  { globalConstants := { transportKgCO2PerKm := [("truck", 9/10)],
                         dieselKgCO2PerL := 268/100 },
    siteConstants := { biocharDensityKgPerL := 12/10,
                       biocharCarbonContent := 8/10, gramsCO2PerKWh := 400 },
    formulations := fun _ => some (some (3/10)),
    customers := fun _ => some (some 50),
    suppliers := fun _ => some (some 50) }

/-- Fixture timestamp: midnight UTC. -/
def dt0 : ZonedDT := { instant := 0, offset := 0 }

/-- C6 fixture: an electricity entry followed by an unrecognized type. -/
def costElecW : CarbonCost :=
  { id := "cc1", ctype := "Electricity", date := dt0, value := 2000, notes := "grid" }

/-- C6 fixture: a carbon-cost entry of an unrecognized type. -/
def costMethaneW : CarbonCost :=
  { id := "cc2", ctype := "Methane", date := dt0, value := 5, notes := "flare" }

/-- C6: the carbon-cost loop does NOT raise on an unrecognized type: an
entry of type "Methane" that follows an "Electricity" entry is appended
to carbon_released carrying the electricity entry's 0.8 tons, and an
unrecognized entry with no prior assignment dies with a NameError instead
of a typed fault. -/
theorem unknown_cost_type_carryover :
    processCosts dbW none [costElecW, costMethaneW] =
      .ok [{ rowId := "cc1", rowType := "Electricity: grid", date := dt0,
             tonsCO2 := 4/5 },
           { rowId := "cc2", rowType := "Methane: flare", date := dt0,
             tonsCO2 := 4/5 }] ∧
    processCosts dbW none [costMethaneW] =
      .error "NameError: tons_co2 referenced before assignment" := by
  constructor
  · simp [processCosts, costTons, costElecW, costMethaneW, dbW]
    norm_num
  · simp [processCosts, costTons, costMethaneW]

/-- Fixture: a delivered, not-yet-activated 1000 L order for an external
customer, moved by truck. -/
def orderW : Order :=
  { orderNumber := "ord-1", deliveredDate := dt0, productionQuantity := 1000,
    formulation := "F1", customer := "ACME", vehicle := some "truck",
    isActivated := false }

/-- Fixture: the same order with zero production quantity. -/
def orderW0 : Order :=
  { orderW with orderNumber := "ord-0", productionQuantity := 0 }

/-- Fixture: the same order already activated. -/
def orderActW : Order :=
  { orderW with orderNumber := "ord-2", isActivated := true }

/-- Fixture: the same order with no vehicle reference. -/
def faultyOrderW : Order :=
  { orderW with orderNumber := "ord-9", vehicle := none }

theorem run_aborts_on_missing_transport_data_witness :
    do_accounting dbW [faultyOrderW] [] [] [] ≠ .ok ([], [], 0) :=
  run_aborts_on_missing_transport_data dbW [faultyOrderW] [] [] []
    (Or.inl ⟨faultyOrderW, List.mem_singleton.mpr rfl, rfl⟩) ([], [], 0)

theorem retired_row_iff_positive_tons_witness :
    (([] : List (RetiredRow ZonedDT)) ≠ [] ↔ (0 : ℚ) < 0) ∧
    (orderW0.productionQuantity = 0 → ([] : List (RetiredRow ZonedDT)) = []) :=
  retired_row_iff_positive_tons dbW orderW0 []
    [{ rowId := "ord-0", rowType := "Raw Biochar Transport", date := dt0,
       tonsCO2 := 9/200 }] 0
    (by simp [processOrder, tons_co2, tons_carbon, tons_biochar, prod_qty_biochar,
          vehicleRate, assocFind, dbW, orderW0, orderW, dt0] <;> norm_num)

theorem retired_row_formula_witness :
    ({ orderNumber := "ord-1", date := convert_to_gmt3 dt0, tonsCarbon := 36/125,
       tonsCO2 := 132/125 } : RetiredRow Int).tonsCO2 =
      ({ orderNumber := "ord-1", date := convert_to_gmt3 dt0, tonsCarbon := 36/125,
         tonsCO2 := 132/125 } : RetiredRow Int).tonsCarbon * (44 / 12) :=
  (retired_row_formula dbW [orderW] [] [] []
      [{ orderNumber := "ord-1", date := convert_to_gmt3 dt0, tonsCarbon := 36/125,
         tonsCO2 := 132/125 }]
      [{ rowId := "ord-1", rowType := "Raw Biochar Transport",
         date := convert_to_gmt3 dt0, tonsCO2 := 9/200 }]
      0
      (by simp [do_accounting, processOrders, processOrder, processInputs,
            processCosts, tons_co2, tons_carbon, tons_biochar, prod_qty_biochar,
            vehicleRate, assocFind, retiredToGmt3, releasedToGmt3, dbW, orderW,
            dt0] <;> norm_num)).1
    { orderNumber := "ord-1", date := convert_to_gmt3 dt0, tonsCarbon := 36/125,
      tonsCO2 := 132/125 }
    (List.mem_singleton.mpr rfl)

theorem transport_row_conditions_witness :
    orderActW.isActivated = true ∧ ([] : List (ReleasedRow ZonedDT)) = [] :=
  ⟨rfl, (transport_row_conditions dbW orderActW
      [{ orderNumber := "ord-2", date := dt0, tonsCarbon := 36/125,
         tonsCO2 := 132/125 }]
      [] (132/125)
      (by simp [processOrder, tons_co2, tons_carbon, tons_biochar,
            prod_qty_biochar, dbW, orderActW, orderW, dt0] <;> norm_num)).1 rfl⟩

theorem energy_cost_rows_witness :
    ∃ tl, ([{ rowId := "cc1", rowType := "Electricity: grid", date := dt0,
              tonsCO2 := 4/5 }] : List (ReleasedRow ZonedDT)) =
      { rowId := costElecW.id,
        rowType := costElecW.ctype ++ ": " ++ costElecW.notes,
        date := costElecW.date, tonsCO2 := 4/5 } :: tl :=
  (energy_cost_rows dbW none costElecW []
      [{ rowId := "cc1", rowType := "Electricity: grid", date := dt0,
         tonsCO2 := 4/5 }]
      (by simp [processCosts, costTons, costElecW, dbW] <;> norm_num)).2.2
    rfl rfl rfl

/-- Fixture store: the same customer id sits at 5 km from one site's
collection and at 7 km from every other site's collection. -/
def storeW : String → String → Option ℚ :=
  fun p _ => if p = "sites/alpha" then some 5 else some 7

theorem distance_cache_keyed_by_id_witness :
    cacheLookup [] "cust1" = none ∧ cacheLookup [] "sup1" = none ∧
    (((get_customer_distance storeW [] "sites/alpha" "cust1").distance =
        storeW "sites/alpha" "cust1" ∧
      (get_customer_distance storeW
        (get_customer_distance storeW [] "sites/alpha" "cust1").cache
        "sites/beta" "cust1").didStoreLookup = false ∧
      (get_customer_distance storeW
        (get_customer_distance storeW [] "sites/alpha" "cust1").cache
        "sites/beta" "cust1").distance = storeW "sites/alpha" "cust1") ∧
     ((get_supplier_distance storeW [] "sites/alpha" "sup1").distance =
        storeW "sites/alpha" "sup1" ∧
      (get_supplier_distance storeW
        (get_supplier_distance storeW [] "sites/alpha" "sup1").cache
        "sites/beta" "sup1").didStoreLookup = false ∧
      (get_supplier_distance storeW
        (get_supplier_distance storeW [] "sites/alpha" "sup1").cache
        "sites/beta" "sup1").distance = storeW "sites/alpha" "sup1")) :=
  ⟨rfl, rfl,
   distance_cache_keyed_by_id storeW storeW [] [] "sites/alpha" "sites/beta"
     "sites/alpha" "sites/beta" "cust1" "sup1" rfl rfl⟩

/-- Fixture: a database whose only vehicle has a transport rate of
exactly 0 kgCO2/km. -/
def dbZ : Db :=
  { dbW with globalConstants := { transportKgCO2PerKm := [("bike", 0)],
                                  dieselKgCO2PerL := 268/100 } }

/-- Fixture: a delivered raw-biochar order moved by the zero-rate
vehicle. -/
def orderZW : Order :=
  { orderW with orderNumber := "ord-z", vehicle := some "bike" }

/-- Fixture: a biomass input moved by the zero-rate vehicle. -/
def inputZW : BiomassInput :=
  { id := "in-1", deliveryDate := dt0, supplier := some "sup1",
    vehicle := some "bike" }

theorem zero_transport_asymmetry_witness :
    processOrder dbZ orderZW = .ok
      ((if tons_co2 dbZ (3/10) orderZW > 0 then
          [{ orderNumber := orderZW.orderNumber, date := orderZW.deliveredDate,
             tonsCarbon := tons_carbon dbZ (3/10) orderZW,
             tonsCO2 := tons_co2 dbZ (3/10) orderZW }]
        else []),
       [{ rowId := orderZW.orderNumber, rowType := "Raw Biochar Transport",
          date := orderZW.deliveredDate, tonsCO2 := 0 }],
       tons_co2 dbZ (3/10) orderZW) ∧
    (∃ e, processInput dbZ inputZW = .error e) :=
  zero_transport_asymmetry dbZ orderZW inputZW (3/10) 0 50 0 50 "sup1"
    rfl rfl (by decide) rfl rfl (Or.inl rfl) rfl rfl rfl (Or.inl rfl)
